import Mathlib

/-!
# Verification of joykbd's event translation and motion-repeat engine

Shallow embedding of `src/main.rs` of the joykbd repository.

Modelling conventions:
* Rust `i32` values are Lean `ℤ`; where the source performs `i32` addition that
  can overflow, the release-mode wrapping semantics is modelled explicitly by
  `wrapI32`. Rust `u32` values are Lean `ℕ`.
* Rust `f64` arithmetic is modelled as exact rational arithmetic (`ℚ`):
  `f64::from(i32)` is the cast `ℤ → ℚ`, `powi(5)` is `(·)^5`, and the Rust
  saturating cast `as i32` (round toward zero, clamp to the `i32` range) is
  `satI32 ∘ ratTrunc`.
* evdev event-type and event-code constants are the numeric values from
  `linux/input-event-codes.h`, as used by the `evdev` crate.
* The tokio select loop of `main` is modelled as a step function `loopStep`
  on an explicit scheduler state (`LoopState`); one loop iteration handles one
  wake source (a physical input event, the X timer, or the Y timer) and
  produces the list of events emitted to the virtual device during that
  iteration.
-/

/-- Wrapping of an unbounded integer into the `i32` range
`[-2^31, 2^31)` — Rust release-mode semantics of `i32` addition. -/
def wrapI32 (n : ℤ) : ℤ := (n + 2 ^ 31) % 2 ^ 32 - 2 ^ 31

/-- Saturation (clamping) to the `i32` range, as performed by Rust's
`as i32` cast from `f64`. -/
def satI32 (n : ℤ) : ℤ := max (-(2 ^ 31)) (min (2 ^ 31 - 1) n)

/-- Truncation of a rational toward zero: the integer part of the Rust
`as i32` cast from `f64`. -/
def ratTrunc (q : ℚ) : ℤ := if 0 ≤ q then ⌊q⌋ else ⌈q⌉

/-- `struct StickConstants` of `main.rs`.  `factor` is the exact rational
modelling the `f64` field; `drift_threshold` is the `u32` field;
`adjustments` is the pair `(adjust_x, adjust_y)`. -/
structure StickConstants where
  factor : ℚ
  drift_threshold : ℕ
  adjustments : ℤ × ℤ

/-- `enum Axis` of `main.rs`. -/
inductive Axis
  | X
  | Y

/-- `Args::stick_constants` of `main.rs`: builds the constants from the
command-line parameters, with `factor = speed / 30000^5`. -/
def stick_constants (speed : ℚ) (drift_threshold : ℕ) (adjust_x adjust_y : ℤ) :
    StickConstants :=
  { factor := speed / 30000 ^ 5
    drift_threshold := drift_threshold
    adjustments := (adjust_x, adjust_y) }

/-- `StickConstants::map_axis` of `main.rs`:
bias correction (wrapping `i32` addition), dead zone on `unsigned_abs`,
then the fifth-power response curve `(f64::from(value).powi(5) * factor) as i32`,
with the `f64` arithmetic modelled exactly over `ℚ`. -/
def StickConstants.map_axis (c : StickConstants) (axis : Axis) (value : ℤ) : ℤ :=
  let value := wrapI32 (value +
    match axis with
    | Axis.X => c.adjustments.1
    | Axis.Y => c.adjustments.2)
  if value.natAbs < c.drift_threshold then 0
  else satI32 (ratTrunc ((value : ℚ) ^ 5 * c.factor))

/-! ## evdev constants (numeric values of `linux/input-event-codes.h`) -/

def EV_SYN : ℕ := 0
def EV_KEY : ℕ := 1
def EV_REL : ℕ := 2
def EV_ABS : ℕ := 3

def BTN_SOUTH : ℕ := 304
def BTN_EAST : ℕ := 305
def BTN_NORTH : ℕ := 307
def BTN_WEST : ℕ := 308
def BTN_TL : ℕ := 310
def BTN_TR : ℕ := 311
def BTN_TL2 : ℕ := 312
def BTN_TR2 : ℕ := 313
def BTN_THUMBL : ℕ := 317
def BTN_THUMBR : ℕ := 318

def BTN_LEFT : ℕ := 272
def BTN_RIGHT : ℕ := 273
def BTN_MIDDLE : ℕ := 274
def KEY_UP : ℕ := 103
def KEY_LEFT : ℕ := 105
def KEY_RIGHT : ℕ := 106
def KEY_DOWN : ℕ := 108

def REL_X : ℕ := 0
def REL_Y : ℕ := 1

/-- An evdev `InputEvent`: event type, event code, and `i32` value.
The timestamp is irrelevant to the translation and is omitted. -/
structure InputEvent where
  etype : ℕ
  code : ℕ
  value : ℤ
  deriving DecidableEq

/-- `map_event` of `main.rs`.  The Rust code matches on `ev.kind()`, which is
`Key c` exactly when the event type is `EV_KEY` and `AbsAxis c` exactly when
it is `EV_ABS`; every other kind falls through to `None`. -/
def map_event (ev : InputEvent) (stick_constants : StickConstants) :
    Option InputEvent :=
  if ev.etype = EV_KEY then
    -- ZL/ZR
    if ev.code = BTN_TR2 ∨ ev.code = BTN_TL2 then
      some ⟨EV_KEY, BTN_LEFT, ev.value⟩
    -- L
    else if ev.code = BTN_TR ∨ ev.code = BTN_TL then
      some ⟨EV_KEY, BTN_RIGHT, ev.value⟩
    -- press R stick
    else if ev.code = BTN_THUMBR ∨ ev.code = BTN_THUMBL then
      some ⟨EV_KEY, BTN_MIDDLE, ev.value⟩
    -- A
    else if ev.code = BTN_EAST then some ⟨EV_KEY, KEY_RIGHT, ev.value⟩
    -- B
    else if ev.code = BTN_SOUTH then some ⟨EV_KEY, KEY_DOWN, ev.value⟩
    -- X
    else if ev.code = BTN_NORTH then some ⟨EV_KEY, KEY_UP, ev.value⟩
    -- Y
    else if ev.code = BTN_WEST then some ⟨EV_KEY, KEY_LEFT, ev.value⟩
    else none
  else if ev.etype = EV_ABS then
    if ev.code = 3 ∨ ev.code = 0 then  -- ABS_RX | ABS_X
      some ⟨EV_REL, REL_X, stick_constants.map_axis Axis.X ev.value⟩
    else if ev.code = 4 ∨ ev.code = 1 then  -- ABS_RY | ABS_Y
      some ⟨EV_REL, REL_Y, stick_constants.map_axis Axis.Y ev.value⟩
    else none
  else none

/-! ## The select loop of `main` -/

/-- The mutable state of the loop in `main`: the two "last value" slots
`prev_x`, `prev_y` and the two timer deadlines.  A deadline of `none` models
the initial `sleep(Duration::MAX)` (effectively infinite, never fires);
`some d` models a deadline armed at instant `d`.  Instants are naturals
(monotone clock). -/
structure LoopState where
  prev_x : ℤ
  prev_y : ℤ
  deadline_x : Option ℕ
  deadline_y : Option ℕ
  deriving DecidableEq

/-- The initial loop state: both slots 0, both timers effectively infinite. -/
def initState : LoopState := ⟨0, 0, none, none⟩

/-- One wake source of the 3-way `tokio::select!`. -/
inductive Wake
  | phys (ev : InputEvent)
  | timerX
  | timerY

/-- One iteration of the select loop of `main`, woken at instant `now` by
wake source `w`: returns the new state and the list of events emitted to the
virtual device during the iteration. -/
def loopStep (sc : StickConstants) (repeat_timeout : ℕ) (now : ℕ)
    (s : LoopState) (w : Wake) : LoopState × List InputEvent :=
  match w with
  | Wake.phys ev =>
    match map_event ev sc with
    | none => (s, [])
    | some ev =>
      if ev.etype = EV_REL ∧ ev.code = REL_X then
        ({ s with deadline_x := some (now + repeat_timeout),
                  prev_x := ev.value }, [ev])
      else if ev.etype = EV_REL ∧ ev.code = REL_Y then
        ({ s with deadline_y := some (now + repeat_timeout),
                  prev_y := ev.value }, [ev])
      else (s, [ev])
  | Wake.timerX =>
    ({ s with deadline_x := some (now + repeat_timeout) },
     [⟨EV_REL, REL_X, s.prev_x⟩])
  | Wake.timerY =>
    ({ s with deadline_y := some (now + repeat_timeout) },
     [⟨EV_REL, REL_Y, s.prev_y⟩])

/-- The earliest armed timer of the state, with the wake source it triggers;
ties are broken in favour of X (the select's choice is arbitrary; the claims
proved below do not depend on the tie order). -/
def earliestTimer (s : LoopState) : Option (ℕ × Wake) :=
  match s.deadline_x, s.deadline_y with
  | none, none => none
  | some dx, none => some (dx, Wake.timerX)
  | none, some dy => some (dy, Wake.timerY)
  | some dx, some dy =>
    if dx ≤ dy then some (dx, Wake.timerX) else some (dy, Wake.timerY)

/-- Run the loop with no physical input until instant `endT` (inclusive):
repeatedly handle the earliest armed timer whose deadline is at most `endT`.
`fuel` bounds the number of iterations; the timestamped emissions are
returned alongside the final state. -/
def runNoInput (sc : StickConstants) (repeat_timeout endT : ℕ) :
    LoopState → ℕ → LoopState × List (ℕ × InputEvent)
  | s, 0 => (s, [])
  | s, fuel + 1 =>
    match earliestTimer s with
    | none => (s, [])
    | some (d, w) =>
      if d ≤ endT then
        let p := loopStep sc repeat_timeout d s w
        let r := runNoInput sc repeat_timeout endT p.1 fuel
        (r.1, p.2.map (fun e => (d, e)) ++ r.2)
      else (s, [])

/-- The (type, code) capability set registered on the virtual device at
startup in `main`: relative axes `REL_X`, `REL_Y` and the seven keys. -/
def registered_capabilities : List (ℕ × ℕ) :=
  [(EV_REL, REL_X), (EV_REL, REL_Y),
   (EV_KEY, BTN_LEFT), (EV_KEY, BTN_RIGHT), (EV_KEY, BTN_MIDDLE),
   (EV_KEY, KEY_UP), (EV_KEY, KEY_RIGHT), (EV_KEY, KEY_DOWN),
   (EV_KEY, KEY_LEFT)]

/-- The event kinds appearing in the fixed translation table of `map_event`:
the ten physical key codes and the four absolute-axis codes. -/
def tableKind (ev : InputEvent) : Prop :=
  (ev.etype = EV_KEY ∧
    ev.code ∈ [BTN_TR2, BTN_TL2, BTN_TR, BTN_TL, BTN_THUMBR, BTN_THUMBL,
               BTN_EAST, BTN_SOUTH, BTN_NORTH, BTN_WEST]) ∨
  (ev.etype = EV_ABS ∧ ev.code ∈ [3, 0, 4, 1])

instance (ev : InputEvent) : Decidable (tableKind ev) := by
  unfold tableKind; infer_instance

/-- Modelled from the spec: the response curve as the spec's sentence words
it, `round(adjusted_value^5 * factor)` with `factor = speed / 30000^5` —
rounding to nearest, for comparison with the truncation the code performs. -/
def map_axis_spec_round (adjustment : ℤ) (speed : ℚ) (value : ℤ) : ℤ :=
  round (((value + adjustment : ℤ) : ℚ) ^ 5 * (speed / 30000 ^ 5))

/-- The per-axis adjustment selected by `map_axis`'s `match` on the axis. -/
def StickConstants.adjustment (c : StickConstants) : Axis → ℤ
  | Axis.X => c.adjustments.1
  | Axis.Y => c.adjustments.2

/-! ## Helper lemmas -/

theorem map_axis_eq (c : StickConstants) (axis : Axis) (value : ℤ) :
    c.map_axis axis value =
      if (wrapI32 (value + c.adjustment axis)).natAbs < c.drift_threshold then 0
      else satI32 (ratTrunc ((wrapI32 (value + c.adjustment axis) : ℚ) ^ 5 * c.factor)) := by
  cases axis <;> rfl

theorem wrapI32_eq_self {n : ℤ} (h1 : -2 ^ 31 ≤ n) (h2 : n < 2 ^ 31) :
    wrapI32 n = n := by
  unfold wrapI32; omega

theorem wrapI32_mem_range (n : ℤ) :
    -2 ^ 31 ≤ wrapI32 n ∧ wrapI32 n < 2 ^ 31 := by
  unfold wrapI32; omega

theorem satI32_bounds (n : ℤ) : -2 ^ 31 ≤ satI32 n ∧ satI32 n ≤ 2 ^ 31 - 1 := by
  unfold satI32; omega

theorem satI32_mono {n m : ℤ} (h : n ≤ m) : satI32 n ≤ satI32 m := by
  unfold satI32; omega

theorem satI32_nonneg {n : ℤ} (h : 0 ≤ n) : 0 ≤ satI32 n := by
  unfold satI32; omega

theorem satI32_nonpos {n : ℤ} (h : n ≤ 0) : satI32 n ≤ 0 := by
  unfold satI32; omega

theorem ratTrunc_mono {x y : ℚ} (h : x ≤ y) : ratTrunc x ≤ ratTrunc y := by
  unfold ratTrunc
  by_cases hx : 0 ≤ x
  · rw [if_pos hx, if_pos (hx.trans h)]
    exact Int.floor_le_floor h
  · rw [if_neg hx]
    by_cases hy : 0 ≤ y
    · rw [if_pos hy]
      calc ⌈x⌉ ≤ 0 := Int.ceil_le.2 (by exact_mod_cast le_of_not_le hx)
        _ ≤ ⌊y⌋ := Int.floor_nonneg.2 hy
    · rw [if_neg hy]
      exact Int.ceil_le_ceil h

theorem ratTrunc_nonneg {q : ℚ} (h : 0 ≤ q) : 0 ≤ ratTrunc q := by
  unfold ratTrunc
  rw [if_pos h]
  exact Int.floor_nonneg.2 h

theorem ratTrunc_nonpos {q : ℚ} (h : q ≤ 0) : ratTrunc q ≤ 0 := by
  unfold ratTrunc
  by_cases hq : 0 ≤ q
  · have h0 : q = 0 := le_antisymm h hq
    simp [h0]
  · rw [if_neg hq]
    exact Int.ceil_le.2 (by exact_mod_cast h)

/-- C2 — In the dead zone the mapper outputs exactly 0: if the absolute
value of the raw value plus the per-axis adjustment is strictly below
`drift_threshold`, `map_axis` returns 0.  (This holds even when the `i32`
bias addition wraps, because a wrapped sum has absolute value at most
`2^31`, which the threshold then exceeds.) -/
theorem map_axis_dead_zone_zero (c : StickConstants) (axis : Axis) (value : ℤ)
    (h : (value + c.adjustment axis).natAbs < c.drift_threshold) :
    c.map_axis axis value = 0 := by
  rw [map_axis_eq]
  rw [if_pos]
  unfold wrapI32
  omega

/-- Witness for `map_axis_dead_zone_zero` at raw value 100 with the default
configuration (threshold 2000, adjustment 0). -/
theorem map_axis_dead_zone_zero_witness :
    (stick_constants 20 2000 0 0).map_axis Axis.X 100 = 0 :=
  map_axis_dead_zone_zero (stick_constants 20 2000 0 0) Axis.X 100 (by decide)

/-- C1 counterexample — at the default configuration (speed 20, threshold
2000, no adjustment) and raw value 20000 (beyond the dead zone), the code
returns the truncation 2 of `20000^5 * factor = 640/243 ≈ 2.63`, while the
spec's `round` would give 3. -/
theorem map_axis_not_round_cex :
    2000 ≤ ((20000 : ℤ) + 0).natAbs ∧
      (stick_constants 20 2000 0 0).map_axis Axis.X 20000 ≠
        map_axis_spec_round 0 20 20000 := by
  constructor
  · decide
  · have h1 : (stick_constants 20 2000 0 0).map_axis Axis.X 20000 = 2 := by
      norm_num [StickConstants.map_axis, stick_constants, wrapI32, satI32, ratTrunc]
    have h2 : map_axis_spec_round 0 20 20000 = 3 := by
      rw [map_axis_spec_round, round_eq]
      norm_num
    rw [h1, h2]
    decide

/-- C1 (amended) — beyond the dead zone, and whenever the `i32` bias addition
does not overflow, `map_axis` returns the value `adjusted^5 * factor` with
`factor = speed / 30000^5`, truncated toward zero and saturated to the `i32`
range (Rust's `as i32` cast), rather than rounded to nearest. -/
theorem map_axis_truncates_curve (speed : ℚ) (dt : ℕ) (ax ay value : ℤ)
    (h1 : -2 ^ 31 ≤ value + ax) (h2 : value + ax < 2 ^ 31)
    (h3 : dt ≤ (value + ax).natAbs) :
    (stick_constants speed dt ax ay).map_axis Axis.X value =
      satI32 (ratTrunc (((value + ax : ℤ) : ℚ) ^ 5 * (speed / 30000 ^ 5))) := by
  rw [map_axis_eq]
  have hadj : (stick_constants speed dt ax ay).adjustment Axis.X = ax := rfl
  rw [hadj, wrapI32_eq_self h1 h2, if_neg (by simpa [stick_constants] using not_lt.2 h3)]
  rfl

/-- Witness for `map_axis_truncates_curve` at speed 20, threshold 2000,
adjustment 0, raw value 20000. -/
theorem map_axis_truncates_curve_witness :
    (stick_constants 20 2000 0 0).map_axis Axis.X 20000 =
      satI32 (ratTrunc (((20000 + 0 : ℤ) : ℚ) ^ 5 * (20 / 30000 ^ 5))) :=
  map_axis_truncates_curve 20 2000 0 0 20000 (by decide) (by decide) (by decide)

/-- C3 counterexample — at the default configuration and raw value 2000
(exactly at the threshold, so outside the dead zone), the curve value
`2000^5 * factor ≈ 0.0000263` truncates to 0, whose sign is 0 and not the
sign 1 of the adjusted value. -/
theorem map_axis_sign_cex :
    2000 ≤ ((2000 : ℤ) + 0).natAbs ∧
      ((stick_constants 20 2000 0 0).map_axis Axis.X 2000).sign ≠
        ((2000 : ℤ) + 0).sign := by
  constructor
  · decide
  · have h1 : (stick_constants 20 2000 0 0).map_axis Axis.X 2000 = 0 := by
      norm_num [StickConstants.map_axis, stick_constants, wrapI32, satI32, ratTrunc]
    rw [h1]
    decide

/-- C3 (amended) — beyond the dead zone (and with a nonnegative configured
factor and no overflow of the bias addition), the output is either 0 or has
the sign of the adjusted value: the response curve never flips the sign, but
truncation toward zero can collapse small curve values to 0. -/
theorem map_axis_sign_or_zero (c : StickConstants) (axis : Axis) (value : ℤ)
    (hf : 0 ≤ c.factor)
    (h1 : -2 ^ 31 ≤ value + c.adjustment axis)
    (h2 : value + c.adjustment axis < 2 ^ 31)
    (h3 : c.drift_threshold ≤ (value + c.adjustment axis).natAbs) :
    c.map_axis axis value = 0 ∨
      (c.map_axis axis value).sign = (value + c.adjustment axis).sign := by
  rw [map_axis_eq, wrapI32_eq_self h1 h2, if_neg (not_lt.2 h3)]
  set s : ℤ := value + c.adjustment axis with hs
  rcases lt_trichotomy s 0 with hneg | hzero | hpos
  · have hq : ((s : ℚ) ^ 5 * c.factor) ≤ 0 := by
      apply mul_nonpos_iff.2
      exact Or.inr ⟨(Odd.pow_nonpos ⟨2, by norm_num⟩ (by exact_mod_cast hneg.le)), hf⟩
    have hr : satI32 (ratTrunc ((s : ℚ) ^ 5 * c.factor)) ≤ 0 :=
      satI32_nonpos (ratTrunc_nonpos hq)
    rcases hr.lt_or_eq with hlt | heq
    · right
      rw [Int.sign_eq_neg_one_of_neg hlt, Int.sign_eq_neg_one_of_neg hneg]
    · left; exact heq
  · have hq : ((s : ℚ) ^ 5 * c.factor) = 0 := by rw [hzero]; norm_num
    left
    rw [hq]
    simp [ratTrunc, satI32]
  · have hq : 0 ≤ ((s : ℚ) ^ 5 * c.factor) := by
      apply mul_nonneg _ hf
      positivity
    have hr : 0 ≤ satI32 (ratTrunc ((s : ℚ) ^ 5 * c.factor)) :=
      satI32_nonneg (ratTrunc_nonneg hq)
    rcases hr.lt_or_eq with hlt | heq
    · right
      rw [Int.sign_eq_one_of_pos hlt, Int.sign_eq_one_of_pos hpos]
    · left; exact heq.symm

/-- Witness for `map_axis_sign_or_zero` at the default configuration and
raw value 30000 (full deflection: output 20, sign 1 on both sides). -/
theorem map_axis_sign_or_zero_witness :
    (stick_constants 20 2000 0 0).map_axis Axis.X 30000 = 0 ∨
      ((stick_constants 20 2000 0 0).map_axis Axis.X 30000).sign =
        ((30000 : ℤ) + (stick_constants 20 2000 0 0).adjustment Axis.X).sign :=
  map_axis_sign_or_zero (stick_constants 20 2000 0 0) Axis.X 30000
    (by norm_num [stick_constants]) (by decide) (by decide) (by decide)

/-- C6 — the translator maps every physical key event through the fixed
table with OR aliasing (either lower trigger `BTN_TL2`/`BTN_TR2` to the
virtual left button, either upper trigger `BTN_TL`/`BTN_TR` to the virtual
right button, either stick click to the middle button, and the
east/south/north/west face buttons to the right/down/up/left keys), always
forwarding the input event's value verbatim. -/
theorem map_event_button_table (sc : StickConstants) (v : ℤ) :
    map_event ⟨EV_KEY, BTN_TL2, v⟩ sc = some ⟨EV_KEY, BTN_LEFT, v⟩ ∧
    map_event ⟨EV_KEY, BTN_TR2, v⟩ sc = some ⟨EV_KEY, BTN_LEFT, v⟩ ∧
    map_event ⟨EV_KEY, BTN_TL, v⟩ sc = some ⟨EV_KEY, BTN_RIGHT, v⟩ ∧
    map_event ⟨EV_KEY, BTN_TR, v⟩ sc = some ⟨EV_KEY, BTN_RIGHT, v⟩ ∧
    map_event ⟨EV_KEY, BTN_THUMBL, v⟩ sc = some ⟨EV_KEY, BTN_MIDDLE, v⟩ ∧
    map_event ⟨EV_KEY, BTN_THUMBR, v⟩ sc = some ⟨EV_KEY, BTN_MIDDLE, v⟩ ∧
    map_event ⟨EV_KEY, BTN_EAST, v⟩ sc = some ⟨EV_KEY, KEY_RIGHT, v⟩ ∧
    map_event ⟨EV_KEY, BTN_SOUTH, v⟩ sc = some ⟨EV_KEY, KEY_DOWN, v⟩ ∧
    map_event ⟨EV_KEY, BTN_NORTH, v⟩ sc = some ⟨EV_KEY, KEY_UP, v⟩ ∧
    map_event ⟨EV_KEY, BTN_WEST, v⟩ sc = some ⟨EV_KEY, KEY_LEFT, v⟩ :=
  ⟨rfl, rfl, rfl, rfl, rfl, rfl, rfl, rfl, rfl, rfl⟩

/-- C7 — any input event whose kind is not one of the ten key codes or four
absolute-axis codes of the fixed table (sync events included) translates to
`None`, and the loop iteration handling it emits nothing and leaves the
entire scheduler state (both timers and both last-value slots) unchanged. -/
theorem map_event_unmapped_dropped (sc : StickConstants) (T now : ℕ)
    (s : LoopState) (ev : InputEvent) (h : ¬ tableKind ev) :
    map_event ev sc = none ∧ loopStep sc T now s (Wake.phys ev) = (s, []) := by
  have hnone : map_event ev sc = none := by
    unfold map_event
    by_cases h1 : ev.etype = EV_KEY
    · simp only [tableKind, h1, true_and, List.mem_cons, List.not_mem_nil,
        or_false, not_or] at h
      rcases h with ⟨h2, -⟩
      simp only [if_pos h1]
      rw [if_neg, if_neg, if_neg, if_neg, if_neg, if_neg, if_neg] <;> tauto
    · by_cases h2 : ev.etype = EV_ABS
      · simp only [tableKind, h1, h2, true_and, false_and, List.mem_cons,
          List.not_mem_nil, or_false, false_or, not_or] at h
        simp only [if_neg h1, if_pos h2]
        rw [if_neg, if_neg] <;> tauto
      · rw [if_neg h1, if_neg h2]
  exact ⟨hnone, by simp [loopStep, hnone]⟩

/-- Witness for `map_event_unmapped_dropped`: a sync event
(type `EV_SYN`, code 0) with the default configuration. -/
theorem map_event_unmapped_dropped_witness :
    map_event ⟨EV_SYN, 0, 0⟩ (stick_constants 20 2000 0 0) = none ∧
      loopStep (stick_constants 20 2000 0 0) 16 0 initState
        (Wake.phys ⟨EV_SYN, 0, 0⟩) = (initState, []) :=
  map_event_unmapped_dropped (stick_constants 20 2000 0 0) 16 0 initState
    ⟨EV_SYN, 0, 0⟩ (by decide)

theorem loopStep_phys_relX (sc : StickConstants) (T now : ℕ) (s : LoopState)
    (ev m : InputEvent) (hm : map_event ev sc = some m)
    (hx : m.etype = EV_REL ∧ m.code = REL_X) :
    loopStep sc T now s (Wake.phys ev) =
      ({ s with deadline_x := some (now + T), prev_x := m.value }, [m]) := by
  simp only [loopStep, hm]
  rw [if_pos hx]

theorem loopStep_phys_relY (sc : StickConstants) (T now : ℕ) (s : LoopState)
    (ev m : InputEvent) (hm : map_event ev sc = some m)
    (hx : ¬(m.etype = EV_REL ∧ m.code = REL_X))
    (hy : m.etype = EV_REL ∧ m.code = REL_Y) :
    loopStep sc T now s (Wake.phys ev) =
      ({ s with deadline_y := some (now + T), prev_y := m.value }, [m]) := by
  simp only [loopStep, hm]
  rw [if_neg hx, if_pos hy]

theorem loopStep_phys_button (sc : StickConstants) (T now : ℕ) (s : LoopState)
    (ev m : InputEvent) (hm : map_event ev sc = some m)
    (hx : ¬(m.etype = EV_REL ∧ m.code = REL_X))
    (hy : ¬(m.etype = EV_REL ∧ m.code = REL_Y)) :
    loopStep sc T now s (Wake.phys ev) = (s, [m]) := by
  simp only [loopStep, hm]
  rw [if_neg hx, if_neg hy]

/-- C4 — per-axis state consistency of one loop iteration: whenever the
iteration emits a relative-motion event for an axis (translated from a live
physical event or synthesized on timer expiry), that axis's deadline in the
resulting state is `now + repeat_timeout`; and an iteration that emits an
event for one axis leaves the other axis's deadline and last-value slot
unchanged. -/
theorem loopStep_rearm_consistency (sc : StickConstants) (T now : ℕ)
    (s : LoopState) (w : Wake) :
    (∀ e ∈ (loopStep sc T now s w).2, e.etype = EV_REL → e.code = REL_X →
      (loopStep sc T now s w).1.deadline_x = some (now + T)) ∧
    (∀ e ∈ (loopStep sc T now s w).2, e.etype = EV_REL → e.code = REL_Y →
      (loopStep sc T now s w).1.deadline_y = some (now + T)) ∧
    ((∃ e ∈ (loopStep sc T now s w).2, e.etype = EV_REL ∧ e.code = REL_X) →
      (loopStep sc T now s w).1.deadline_y = s.deadline_y ∧
        (loopStep sc T now s w).1.prev_y = s.prev_y) ∧
    ((∃ e ∈ (loopStep sc T now s w).2, e.etype = EV_REL ∧ e.code = REL_Y) →
      (loopStep sc T now s w).1.deadline_x = s.deadline_x ∧
        (loopStep sc T now s w).1.prev_x = s.prev_x) := by
  cases w with
  | timerX =>
    refine ⟨?_, ?_, ?_, ?_⟩ <;> simp [loopStep, EV_REL, REL_X, REL_Y]
  | timerY =>
    refine ⟨?_, ?_, ?_, ?_⟩ <;> simp [loopStep, EV_REL, REL_X, REL_Y]
  | phys ev =>
    cases hm : map_event ev sc with
    | none =>
      refine ⟨?_, ?_, ?_, ?_⟩ <;> simp [loopStep, hm]
    | some m =>
      by_cases hx : m.etype = EV_REL ∧ m.code = REL_X
      · rw [loopStep_phys_relX sc T now s ev m hm hx]
        refine ⟨?_, ?_, ?_, ?_⟩
        · intro e _ _ _
          rfl
        · intro e he _ h2
          simp only [List.mem_singleton] at he
          subst he
          rw [hx.2] at h2
          exact absurd h2 (by decide)
        · intro _
          exact ⟨rfl, rfl⟩
        · rintro ⟨e, he, -, h2⟩
          simp only [List.mem_singleton] at he
          subst he
          rw [hx.2] at h2
          exact absurd h2 (by decide)
      · by_cases hy : m.etype = EV_REL ∧ m.code = REL_Y
        · rw [loopStep_phys_relY sc T now s ev m hm hx hy]
          refine ⟨?_, ?_, ?_, ?_⟩
          · intro e he _ h2
            simp only [List.mem_singleton] at he
            subst he
            rw [hy.2] at h2
            exact absurd h2 (by decide)
          · intro e _ _ _
            rfl
          · rintro ⟨e, he, -, h2⟩
            simp only [List.mem_singleton] at he
            subst he
            rw [hy.2] at h2
            exact absurd h2 (by decide)
          · intro _
            exact ⟨rfl, rfl⟩
        · rw [loopStep_phys_button sc T now s ev m hm hx hy]
          refine ⟨?_, ?_, ?_, ?_⟩
          · intro e he h1 h2
            simp only [List.mem_singleton] at he
            subst he
            exact absurd ⟨h1, h2⟩ hx
          · intro e he h1 h2
            simp only [List.mem_singleton] at he
            subst he
            exact absurd ⟨h1, h2⟩ hy
          · intro _
            exact ⟨rfl, rfl⟩
          · intro _
            exact ⟨rfl, rfl⟩

/-- Witness for `loopStep_rearm_consistency`: an X-timer expiry at instant
100 with timeout 16 rearms the X deadline to 116. -/
theorem loopStep_rearm_consistency_witness :
    (loopStep (stick_constants 20 2000 0 0) 16 100 initState Wake.timerX).1.deadline_x =
      some 116 :=
  (loopStep_rearm_consistency (stick_constants 20 2000 0 0) 16 100 initState
    Wake.timerX).1 ⟨EV_REL, REL_X, 0⟩ (by decide) (by decide) (by decide)

theorem map_event_caps (ev : InputEvent) (sc : StickConstants) (m : InputEvent)
    (h : map_event ev sc = some m) :
    (m.etype, m.code) ∈ registered_capabilities := by
  unfold map_event at h
  split_ifs at h
  all_goals
    rw [Option.some.injEq] at h
  all_goals
    subst h
  all_goals
    simp [registered_capabilities, EV_KEY, EV_REL, BTN_LEFT, BTN_RIGHT,
      BTN_MIDDLE, KEY_UP, KEY_RIGHT, KEY_DOWN, KEY_LEFT, REL_X, REL_Y]

/-- C10 — every event an iteration of the loop hands to the output sink,
whether translated from a physical event or synthesized on a timer expiry,
has a (type, code) pair inside the capability set registered on the virtual
device at startup. -/
theorem emitted_events_registered (sc : StickConstants) (T now : ℕ)
    (s : LoopState) (w : Wake) (e : InputEvent)
    (h : e ∈ (loopStep sc T now s w).2) :
    (e.etype, e.code) ∈ registered_capabilities := by
  cases w with
  | timerX =>
    simp [loopStep] at h
    subst h
    simp [registered_capabilities]
  | timerY =>
    simp [loopStep] at h
    subst h
    simp [registered_capabilities]
  | phys ev =>
    cases hm : map_event ev sc with
    | none => simp [loopStep, hm] at h
    | some m =>
      have hmem := map_event_caps ev sc m hm
      by_cases hx : m.etype = EV_REL ∧ m.code = REL_X
      · rw [loopStep_phys_relX sc T now s ev m hm hx] at h
        simp only [List.mem_singleton] at h
        subst h
        exact hmem
      · by_cases hy : m.etype = EV_REL ∧ m.code = REL_Y
        · rw [loopStep_phys_relY sc T now s ev m hm hx hy] at h
          simp only [List.mem_singleton] at h
          subst h
          exact hmem
        · rw [loopStep_phys_button sc T now s ev m hm hx hy] at h
          simp only [List.mem_singleton] at h
          subst h
          exact hmem

/-- Witness for `emitted_events_registered`: the event synthesized by an
X-timer expiry from the initial state. -/
theorem emitted_events_registered_witness :
    ((⟨EV_REL, REL_X, 0⟩ : InputEvent).etype,
      (⟨EV_REL, REL_X, 0⟩ : InputEvent).code) ∈ registered_capabilities :=
  emitted_events_registered (stick_constants 20 2000 0 0) 16 0 initState
    Wake.timerX ⟨EV_REL, REL_X, 0⟩ (by decide)

/-- C8 counterexample — with raw value 30000 (inside the stick's reported
range) and configured adjustment `2^31 - 1` (a valid `i32` command-line
value), the `i32` bias addition `value + adjustment` overflows: it wraps
(panicking in a debug build), and the wrapped, negative sum drives the
result to `i32::MIN` where the unbounded-integer computation would give a
large positive value. -/
theorem map_axis_adjustment_wrap_cex :
    wrapI32 (30000 + (2 ^ 31 - 1)) ≠ 30000 + (2 ^ 31 - 1) ∧
      (StickConstants.mk (20 / 30000 ^ 5) 2000 (2 ^ 31 - 1, 0)).map_axis Axis.X 30000 ≠
        satI32 (ratTrunc (((30000 + (2 ^ 31 - 1) : ℤ) : ℚ) ^ 5 * (20 / 30000 ^ 5))) := by
  constructor
  · decide
  · have h1 : (StickConstants.mk (20 / 30000 ^ 5) 2000 (2 ^ 31 - 1, 0)).map_axis
        Axis.X 30000 = -2147483648 := by
      norm_num [StickConstants.map_axis, wrapI32, satI32, ratTrunc, Int.ceil_le,
        Int.le_floor]
    have h2 : satI32 (ratTrunc (((30000 + (2 ^ 31 - 1) : ℤ) : ℚ) ^ 5 *
        (20 / 30000 ^ 5))) = 2147483647 := by
      norm_num [satI32, ratTrunc, Int.ceil_le, Int.le_floor]
    rw [h1, h2]
    decide

/-- C8 (amended) — `map_axis` has no error conditions and, whenever the
adjusted sum fits in `i32` (in particular for every raw value in the stick's
reported range together with any adjustment keeping the sum in range), the
bias addition does not wrap and the result of the dead zone, the exact
widened fifth-power curve and the saturating conversion always lies in the
`i32` range. -/
theorem map_axis_no_overflow (c : StickConstants) (axis : Axis) (value : ℤ)
    (h1 : -2 ^ 31 ≤ value + c.adjustment axis)
    (h2 : value + c.adjustment axis < 2 ^ 31) :
    wrapI32 (value + c.adjustment axis) = value + c.adjustment axis ∧
      -2 ^ 31 ≤ c.map_axis axis value ∧ c.map_axis axis value ≤ 2 ^ 31 - 1 := by
  refine ⟨wrapI32_eq_self h1 h2, ?_, ?_⟩
  · rw [map_axis_eq]
    split
    · norm_num
    · exact (satI32_bounds _).1
  · rw [map_axis_eq]
    split
    · norm_num
    · exact (satI32_bounds _).2

/-- Witness for `map_axis_no_overflow` at the default configuration and
full deflection 30000. -/
theorem map_axis_no_overflow_witness :
    wrapI32 ((30000 : ℤ) + (stick_constants 20 2000 0 0).adjustment Axis.X) =
        30000 + (stick_constants 20 2000 0 0).adjustment Axis.X ∧
      -2 ^ 31 ≤ (stick_constants 20 2000 0 0).map_axis Axis.X 30000 ∧
        (stick_constants 20 2000 0 0).map_axis Axis.X 30000 ≤ 2 ^ 31 - 1 :=
  map_axis_no_overflow (stick_constants 20 2000 0 0) Axis.X 30000
    (by decide) (by decide)

/-- C9 — beyond the dead zone, `map_axis` is monotonically non-decreasing in
its adjusted input: with a nonnegative configured factor (any nonnegative
speed) and adjusted sums that fit in `i32`, a larger adjusted reading never
yields a smaller output (the odd fifth power, the multiplication by the
nonnegative factor, truncation toward zero, and saturation all preserve
order). -/
theorem map_axis_monotone (c : StickConstants) (axis : Axis) (a b : ℤ)
    (hf : 0 ≤ c.factor)
    (ha1 : -2 ^ 31 ≤ a + c.adjustment axis) (ha2 : a + c.adjustment axis < 2 ^ 31)
    (hb1 : -2 ^ 31 ≤ b + c.adjustment axis) (hb2 : b + c.adjustment axis < 2 ^ 31)
    (hta : c.drift_threshold ≤ (a + c.adjustment axis).natAbs)
    (htb : c.drift_threshold ≤ (b + c.adjustment axis).natAbs)
    (hab : a + c.adjustment axis ≤ b + c.adjustment axis) :
    c.map_axis axis a ≤ c.map_axis axis b := by
  rw [map_axis_eq, map_axis_eq, wrapI32_eq_self ha1 ha2, wrapI32_eq_self hb1 hb2,
    if_neg (not_lt.2 hta), if_neg (not_lt.2 htb)]
  apply satI32_mono
  apply ratTrunc_mono
  apply mul_le_mul_of_nonneg_right _ hf
  have hq : ((a + c.adjustment axis : ℤ) : ℚ) ≤ ((b + c.adjustment axis : ℤ) : ℚ) := by
    exact_mod_cast hab
  exact (Odd.strictMono_pow (R := ℚ) ⟨2, by norm_num⟩).monotone hq

/-- Witness for `map_axis_monotone`: default configuration, adjusted inputs
2000 and 30000. -/
theorem map_axis_monotone_witness :
    (stick_constants 20 2000 0 0).map_axis Axis.X 2000 ≤
      (stick_constants 20 2000 0 0).map_axis Axis.X 30000 :=
  map_axis_monotone (stick_constants 20 2000 0 0) Axis.X 2000 30000
    (by norm_num [stick_constants]) (by decide) (by decide) (by decide) (by decide)
    (by decide) (by decide) (by decide)

theorem runNoInput_x_stop (sc : StickConstants) (T endT : ℕ) (px py : ℤ)
    (d : ℕ) (fuel : ℕ) (h : endT < d) :
    (runNoInput sc T endT ⟨px, py, some d, none⟩ fuel).2 = [] := by
  cases fuel with
  | zero => rfl
  | succ n =>
    simp only [runNoInput, earliestTimer]
    rw [if_neg (not_le.2 h)]

theorem runNoInput_x_step (sc : StickConstants) (T endT : ℕ) (px py : ℤ)
    (d : ℕ) (fuel : ℕ) (h : d ≤ endT) :
    (runNoInput sc T endT ⟨px, py, some d, none⟩ (fuel + 1)).2 =
      (d, ⟨EV_REL, REL_X, px⟩) ::
        (runNoInput sc T endT ⟨px, py, some (d + T), none⟩ fuel).2 := by
  simp only [runNoInput, earliestTimer]
  rw [if_pos h]
  simp [loopStep]

/-- C5 — a single physical X-axis event with raw value 500 arrives at `t0`
and no further input arrives through `t0 + 3*repeat_timeout`: the live event
emits the translated value once, and then exactly 3 synthetic X events are
emitted, each carrying the translated value of 500's mapping, spaced
`repeat_timeout` apart; the Y axis (still disarmed) emits nothing during
that interval. -/
theorem single_event_repeats_thrice (sc : StickConstants) (T t0 fuel : ℕ)
    (hT : 0 < T) (hf : 3 ≤ fuel) :
    (loopStep sc T t0 initState (Wake.phys ⟨EV_ABS, 0, 500⟩)).2 =
      [⟨EV_REL, REL_X, sc.map_axis Axis.X 500⟩] ∧
    (runNoInput sc T (t0 + 3 * T)
        (loopStep sc T t0 initState (Wake.phys ⟨EV_ABS, 0, 500⟩)).1 fuel).2 =
      [(t0 + T, ⟨EV_REL, REL_X, sc.map_axis Axis.X 500⟩),
       (t0 + 2 * T, ⟨EV_REL, REL_X, sc.map_axis Axis.X 500⟩),
       (t0 + 3 * T, ⟨EV_REL, REL_X, sc.map_axis Axis.X 500⟩)] := by
  have hmap : map_event ⟨EV_ABS, 0, 500⟩ sc =
      some ⟨EV_REL, REL_X, sc.map_axis Axis.X 500⟩ := rfl
  have hstep : loopStep sc T t0 initState (Wake.phys ⟨EV_ABS, 0, 500⟩) =
      (⟨sc.map_axis Axis.X 500, 0, some (t0 + T), none⟩,
        [⟨EV_REL, REL_X, sc.map_axis Axis.X 500⟩]) := by
    rw [loopStep_phys_relX sc T t0 initState _ _ hmap ⟨rfl, rfl⟩]
    rfl
  refine ⟨by rw [hstep], ?_⟩
  rw [hstep]
  obtain ⟨k, rfl⟩ : ∃ k, fuel = k + 3 := ⟨fuel - 3, by omega⟩
  rw [show k + 3 = k + 2 + 1 from rfl]
  rw [runNoInput_x_step sc T (t0 + 3 * T) (sc.map_axis Axis.X 500) 0 (t0 + T)
    (k + 2) (by omega)]
  rw [show t0 + T + T = t0 + 2 * T from by ring]
  rw [show k + 2 = k + 1 + 1 from rfl]
  rw [runNoInput_x_step sc T (t0 + 3 * T) (sc.map_axis Axis.X 500) 0 (t0 + 2 * T)
    (k + 1) (by omega)]
  rw [show t0 + 2 * T + T = t0 + 3 * T from by ring]
  rw [runNoInput_x_step sc T (t0 + 3 * T) (sc.map_axis Axis.X 500) 0 (t0 + 3 * T)
    k (by omega)]
  rw [runNoInput_x_stop sc T (t0 + 3 * T) (sc.map_axis Axis.X 500) 0
    (t0 + 3 * T + T) k (by omega)]

/-- Witness for `single_event_repeats_thrice`: default configuration,
timeout 16, event at instant 0, fuel 3. -/
theorem single_event_repeats_thrice_witness :
    (loopStep (stick_constants 20 2000 0 0) 16 0 initState
        (Wake.phys ⟨EV_ABS, 0, 500⟩)).2 =
      [⟨EV_REL, REL_X, (stick_constants 20 2000 0 0).map_axis Axis.X 500⟩] ∧
    (runNoInput (stick_constants 20 2000 0 0) 16 (0 + 3 * 16)
        (loopStep (stick_constants 20 2000 0 0) 16 0 initState
          (Wake.phys ⟨EV_ABS, 0, 500⟩)).1 3).2 =
      [(0 + 16, ⟨EV_REL, REL_X, (stick_constants 20 2000 0 0).map_axis Axis.X 500⟩),
       (0 + 2 * 16, ⟨EV_REL, REL_X, (stick_constants 20 2000 0 0).map_axis Axis.X 500⟩),
       (0 + 3 * 16, ⟨EV_REL, REL_X, (stick_constants 20 2000 0 0).map_axis Axis.X 500⟩)] :=
  single_event_repeats_thrice (stick_constants 20 2000 0 0) 16 0 3
    (by decide) (by decide)
